import Mathlib

/-!
Shallow embedding of `mining/service.py` (class `MiningService`) from the
stratum-mining-litecoin repository.

The Python session is a per-connection dict; we model the three keys the
service touches (`authorized`, `extranonce1`, `difficulty`) as fields, with
`Option` for keys that may be absent.  External collaborators reached through
`Interfaces` (the worker manager, timestamper, share limiter, template
registry, share manager) are modelled as an environment of oracle functions,
and the calls the handler makes into them are logged as explicit effects so
that theorems can speak about what was recorded and in which order.

Python's exceptions become an `Except` result; `SubmitException msg` models
`lib.exceptions.SubmitException`, and `keyError` models a raw `KeyError` from
indexing a dict key that is absent.
-/

/-- A Python byte string, as a list of byte values. -/
def ByteStr := List Nat
deriving DecidableEq, Repr

/-- Python truthiness of `bytes`-or-`None`: `None` and the empty byte string
are falsy, any non-empty byte string is truthy.  Used by
`if not extranonce1_bin:` at `service.py:87`. -/
def pyBytesFalsy : Option ByteStr → Bool
  | none => true
  | some bs => List.isEmpty bs

/-- Exceptions the handlers can raise. -/
inductive PyError where
  | submitException (msg : String)
  | keyError (key : String)
deriving DecidableEq, Repr

/-- The per-connection session dict, restricted to the keys `MiningService`
reads or writes.  `authorized` is the worker-name → password map
(`session['authorized']`, defaulted to `{}` by `setdefault`); `extranonce1`
and `difficulty` may be absent before `subscribe` has run. -/
structure Session where
  authorized : List (String × String)
  extranonce1 : Option ByteStr
  difficulty : Option Int
deriving DecidableEq, Repr

/-- Lookup in the association list modelling the `authorized` dict:
`session['authorized'].get(worker_name)`. -/
def authLookup : List (String × String) → String → Option String
  | [], _ => none
  | (k, v) :: rest, w => if k = w then some v else authLookup rest w

/-- Dict assignment `session['authorized'][worker_name] = worker_password`:
replace the binding if the key is present, otherwise append it. -/
def authSet : List (String × String) → String → String → List (String × String)
  | [], k, v => [(k, v)]
  | (k', v') :: rest, k, v =>
      if k' = k then (k, v) :: rest else (k', v') :: authSet rest k v

/-- Dict deletion `del session['authorized'][worker_name]`. -/
def authDel (m : List (String × String)) (k : String) : List (String × String) :=
  List.filter (fun kv => decide (kv.1 ≠ k)) m

/-- Successful result of `Interfaces.template_registry.submit_share`
(`service.py:99`): the tuple
`(block_header, block_hash, share_diff, on_submit, shareAtOldDiff)`.
`block_header`/`block_hash` are `none` when the Python value is `False`;
`on_submit` is `some ()` when a deferred block-submission handle is returned;
`shareAtOldDiff` is `none` for the Python `False` sentinel and `some d` when
the share is credited at the pre-retarget difficulty `d`. -/
structure SubmitShareOk where
  block_header : Option String
  block_hash : Option String
  share_diff : Int
  on_submit : Option Unit
  shareAtOldDiff : Option Int
deriving DecidableEq, Repr

/-- The external collaborators of the service, as oracle functions.
`wmAuthorize` is `Interfaces.worker_manager.authorize` (its second argument is
`None` when the session stores no credential); `time` is
`Interfaces.timestamper.time()`; `ip` is `connection._get_ip()`;
`submitShare` is `Interfaces.template_registry.submit_share` applied to
`(job_id, worker_name, session, extranonce1_bin, extranonce2, ntime, nonce,
difficulty)`, returning either the result tuple or the message of the
`SubmitException` it raises. -/
structure Env where
  wmAuthorize : String → Option String → Bool
  time : Nat
  ip : String
  submitShare : String → String → Session → ByteStr → String → String → String → Int →
      Except String SubmitShareOk

/-- One call to `Interfaces.share_manager.on_submit_share`, in the source's
argument order `(worker_name, block_header, block_hash, difficulty,
timestamp, accepted, ip, invalid_reason, share_diff)`. -/
structure ShareRecord where
  worker : String
  header : Option String
  hash : Option String
  difficulty : Int
  time : Nat
  accepted : Bool
  ip : String
  msg : String
  share_diff : Int
deriving DecidableEq, Repr

/-- Arguments bound by `on_submit.addCallback(on_submit_block, ...)` at
`service.py:121`: the continuation that reports the upstream block
confirmation to the share manager. -/
structure BlockCallback where
  worker : String
  header : Option String
  hash : Option String
  time : Nat
  ip : String
  share_diff : Int
deriving DecidableEq, Repr

/-- Log of the side effects a `submit` call performs: the worker-manager
authorization queries (name, stored credential), the
`Interfaces.share_limiter.submit` calls `(job_id, difficulty, time, worker)`,
the `on_submit_share` records, and the block-confirmation callback, if one
was registered. -/
structure SubmitEffects where
  authCalls : List (String × Option String)
  limiterCalls : List (String × Int × Nat × String)
  records : List ShareRecord
  blockCallback : Option BlockCallback
deriving DecidableEq, Repr

namespace MiningService

/-- `MiningService.authorize` (`service.py:46-58`): ask the worker manager to
authenticate `(worker_name, worker_password)`; on success store the password
in the session's `authorized` map and return `True`, on failure delete the
worker's entry if it has one and return `False`.  The handler is total: bad
credentials produce the boolean `False`, never an exception. -/
def authorize (env : Env) (session : Session)
    (worker_name worker_password : String) : Bool × Session :=
  if env.wmAuthorize worker_name (some worker_password) then
    (true, { session with authorized := authSet session.authorized worker_name worker_password })
  else
    if (authLookup session.authorized worker_name).isSome then
      (false, { session with authorized := authDel session.authorized worker_name })
    else
      (false, session)

/-- `binascii.hexlify`: render a byte string as lowercase hex, two digits per
byte, in order. -/
def hexlify (bs : ByteStr) : String :=
  String.mk (List.foldr
    (fun b acc => Nat.digitChar (b / 16 % 16) :: Nat.digitChar (b % 16) :: acc)
    [] bs)

/-- `MiningService.subscribe` (`service.py:60-72`): allocate a fresh
`extranonce1` from the template registry's allocator (`alloc`, threaded
through state of type `α`), store it and the pool-default difficulty
(`settings.POOL_TARGET`, the parameter `poolTarget`) in the session, and
return the subscription details together with `hexlify(extranonce1)` and the
registry's `extranonce2_size`. -/
def subscribe {α : Type} (alloc : α → ByteStr × α) (extranonce2_size : Nat)
    (details : List String) (poolTarget : Int) (st : α) (session : Session) :
    (List String × String × Nat) × α × Session :=
  let allocated := alloc st
  let extranonce1 := allocated.1
  let extranonce1_hex := hexlify extranonce1
  let session' := { session with
    extranonce1 := some extranonce1
    difficulty := some poolTarget }
  ((details, extranonce1_hex, extranonce2_size), allocated.2, session')

/-- `MiningService.add_litecoind` (`service.py:36-44`): admin call that
requires exactly 4 positional arguments and otherwise raises
`SubmitException` before touching the daemon registry; with 4 arguments it
registers `(host, port, user, password)` via
`bitcoin_rpc.add_connection` (logged here as the first component) and
returns `True`. -/
def add_litecoind (args : List String) :
    List (String × String × String × String) × Except PyError Bool :=
  if args.length ≠ 4 then
    ([], Except.error (PyError.submitException "Incorrect number of parameters sent"))
  else
    ([(args.getD 0 "", args.getD 1 "", args.getD 2 "", args.getD 3 "")], Except.ok true)

/-- `MiningService.submit` (`service.py:74-124`).  Steps, in source order:
re-authenticate through the worker manager with the credential stored in the
session (absent entries pass `None`); require a truthy `extranonce1`; read the
session difficulty; book the share with the rate limiter; validate through
`template_registry.submit_share`; on validation failure record an invalid
outcome `(False, False, difficulty, ..., False, ip, msg, 0)` and re-raise;
on success record an accepted outcome, register the block-confirmation
callback when a handle is present, and return `True`.

Modelled from the spec for lines 107-116: the source line 109 reads
`if shareAtOldDiff = false:`, which is a Python syntax error (assignment in a
condition, and `false` is not a Python name), so the module as written cannot
even be imported.  The model follows the source's own comments and the spec:
the `False` sentinel (`none`) credits the outcome at the snapshotted
`difficulty`, any other value `d` credits it at `d`. -/
def submit (env : Env) (session : Session)
    (worker_name job_id extranonce2 ntime nonce : String) :
    SubmitEffects × Except PyError Bool :=
  let stored := authLookup session.authorized worker_name
  let authCalls := [(worker_name, stored)]
  if ¬ env.wmAuthorize worker_name stored then
    ({ authCalls := authCalls, limiterCalls := [], records := [], blockCallback := none },
     Except.error (PyError.submitException "Worker is not authorized"))
  else
    let extranonce1_bin := session.extranonce1
    if pyBytesFalsy extranonce1_bin then
      ({ authCalls := authCalls, limiterCalls := [], records := [], blockCallback := none },
       Except.error (PyError.submitException "Connection is not subscribed for mining"))
    else
      match session.difficulty with
      | none =>
          ({ authCalls := authCalls, limiterCalls := [], records := [], blockCallback := none },
           Except.error (PyError.keyError "difficulty"))
      | some difficulty =>
          let submit_time := env.time
          let ip := env.ip
          let limiterCalls := [(job_id, difficulty, submit_time, worker_name)]
          match env.submitShare job_id worker_name session (Option.getD extranonce1_bin [])
              extranonce2 ntime nonce difficulty with
          | Except.error msg =>
              ({ authCalls := authCalls, limiterCalls := limiterCalls,
                 records := [⟨worker_name, none, none, difficulty, submit_time, false, ip, msg, 0⟩],
                 blockCallback := none },
               Except.error (PyError.submitException msg))
          | Except.ok r =>
              let record : ShareRecord :=
                match r.shareAtOldDiff with
                | none =>
                    ⟨worker_name, r.block_header, r.block_hash, difficulty, submit_time,
                     true, ip, "", r.share_diff⟩
                | some oldDiff =>
                    ⟨worker_name, r.block_header, r.block_hash, oldDiff, submit_time,
                     true, ip, "", r.share_diff⟩
              let callback : Option BlockCallback :=
                match r.on_submit with
                | none => none
                | some _ =>
                    some ⟨worker_name, r.block_header, r.block_hash, submit_time, env.ip,
                          r.share_diff⟩
              ({ authCalls := authCalls, limiterCalls := limiterCalls,
                 records := [record], blockCallback := callback },
               Except.ok true)

end MiningService

/-! Helper lemmas about the `authorized` association list and the shape of
`submit`'s effect log, shared by the claim theorems below. -/

theorem authLookup_authSet (m : List (String × String)) (k v : String) :
    authLookup (authSet m k v) k = some v := by
  induction m with
  | nil => simp [authSet, authLookup]
  | cons kv rest ih =>
      obtain ⟨k', v'⟩ := kv
      by_cases h : k' = k
      · simp [authSet, authLookup, h]
      · simp [authSet, authLookup, h, ih]

theorem authLookup_authDel (m : List (String × String)) (k : String) :
    authLookup (authDel m k) k = none := by
  induction m with
  | nil => rfl
  | cons kv rest ih =>
      obtain ⟨k', v'⟩ := kv
      by_cases h : k' = k
      · simpa [authDel, List.filter_cons, h] using ih
      · simpa [authDel, List.filter_cons, h, authLookup, ih] using ih

theorem submit_authCalls (env : Env) (session : Session) (w j e2 t n : String) :
    (MiningService.submit env session w j e2 t n).1.authCalls =
      [(w, authLookup session.authorized w)] := by
  simp only [MiningService.submit]
  repeat' split
  all_goals rfl

/-! Concrete environments and sessions used by the witnesses and the
counterexample: oracle behaviours a deployment could exhibit. -/

/-- A worker manager that accepts every (name, credential) pair, paired with a
validator that accepts the share and returns a block-submission handle. -/
def envAcceptAll : Env where
  wmAuthorize := fun _ _ => true
  time := 7
  ip := "10.0.0.1"
  submitShare := fun _ _ _ _ _ _ _ _ =>
    Except.ok ⟨some "header", some "hash", 42, some (), none⟩

/-- A worker manager that rejects every (name, credential) pair. -/
def envRejectAll : Env where
  wmAuthorize := fun _ _ => false
  time := 9
  ip := "203.0.113.2"
  submitShare := fun _ _ _ _ _ _ _ _ =>
    Except.ok ⟨some "header", some "hash", 42, some (), none⟩

/-- A permissive worker manager with a validator that raises
`SubmitException("Invalid nonce")`. -/
def envValidationFail : Env where
  wmAuthorize := fun _ _ => true
  time := 11
  ip := "192.0.2.5"
  submitShare := fun _ _ _ _ _ _ _ _ => Except.error "Invalid nonce"

/-- A permissive worker manager with a validator that accepts the share at the
pre-retarget difficulty 8 (no block handle). -/
def envOldDiffCredit : Env where
  wmAuthorize := fun _ _ => true
  time := 13
  ip := "198.51.100.9"
  submitShare := fun _ _ _ _ _ _ _ _ =>
    Except.ok ⟨some "header", some "hash", 9, none, some 8⟩

/-- A subscribed session with an empty `authorized` map. -/
def sessNoAuth : Session := ⟨[], some [0, 1], some 16⟩

/-- A session before any subscribe, with one authorized worker. -/
def sessAuthNoSub : Session := ⟨[("miner", "pw")], none, none⟩

/-- A session whose `extranonce1` is assigned but is the empty byte string. -/
def sessAuthEmptyE1 : Session := ⟨[("miner", "pw")], some [], some 16⟩

/-- A fully subscribed session with one authorized worker. -/
def sessAuthSub : Session := ⟨[("miner", "pw")], some [171, 205], some 16⟩

/-- A fresh session: no authorizations, no subscription. -/
def sessFresh : Session := ⟨[], none, none⟩

/-- C5: `authorize` returns exactly the worker manager's verdict; on success
the password is stored under the worker's name in the session's `authorized`
map, on failure any entry for that worker is removed.  The handler has type
`Bool × Session`, so bad credentials yield the boolean `false`, never an
exception. -/
theorem authorize_verdict_and_map (env : Env) (session : Session) (w p : String) :
    (MiningService.authorize env session w p).1 = env.wmAuthorize w (some p) ∧
    authLookup (MiningService.authorize env session w p).2.authorized w =
      (if env.wmAuthorize w (some p) then some p else none) := by
  unfold MiningService.authorize
  by_cases h : env.wmAuthorize w (some p)
  · simp [h, authLookup_authSet]
  · by_cases h2 : (authLookup session.authorized w).isSome
    · simp [h, h2, authLookup_authDel]
    · have h3 : authLookup session.authorized w = none :=
        Option.not_isSome_iff_eq_none.mp h2
      simp [h, h2, h3]

/-- C8: `add_litecoind` with an argument count other than 4 raises the
validation `SubmitException` and registers no connection; with exactly 4
arguments it registers `(host, port, user, password)` and returns true. -/
theorem add_litecoind_arity (args : List String) :
    (args.length ≠ 4 →
      MiningService.add_litecoind args =
        ([], Except.error (PyError.submitException "Incorrect number of parameters sent"))) ∧
    (args.length = 4 →
      MiningService.add_litecoind args =
        ([(args.getD 0 "", args.getD 1 "", args.getD 2 "", args.getD 3 "")],
         Except.ok true)) := by
  constructor <;> intro h <;> simp [MiningService.add_litecoind, h]

/-- Witness for C8: 4 arguments register the endpoint; 3 arguments fail with
the validation error and no registration. -/
theorem add_litecoind_arity_witness :
    MiningService.add_litecoind ["localhost", "9332", "user", "pass"] =
      ([("localhost", "9332", "user", "pass")], Except.ok true) ∧
    MiningService.add_litecoind ["localhost", "9332", "user"] =
      ([], Except.error (PyError.submitException "Incorrect number of parameters sent")) :=
  ⟨(add_litecoind_arity ["localhost", "9332", "user", "pass"]).2 (by decide),
   (add_litecoind_arity ["localhost", "9332", "user"]).1 (by decide)⟩

/-- C4: an authorized worker submitting on a session with no `extranonce1`
gets the session-state error.  The check runs after the authorization check
(the hypothesis `hauth` holds) and before everything else: no rate-limiter
call, no record, no callback, and the session's `difficulty` key is never
read (it is left arbitrary, possibly absent, in this statement). -/
theorem submit_unsubscribed_session_error (env : Env) (session : Session)
    (w j e2 t n : String)
    (hauth : env.wmAuthorize w (authLookup session.authorized w) = true)
    (hsub : session.extranonce1 = none) :
    MiningService.submit env session w j e2 t n =
      ({ authCalls := [(w, authLookup session.authorized w)], limiterCalls := [],
         records := [], blockCallback := none },
       Except.error (PyError.submitException "Connection is not subscribed for mining")) := by
  unfold MiningService.submit
  simp [hauth, hsub, pyBytesFalsy]

/-- Witness for C4 at a concrete authorized-but-unsubscribed session. -/
theorem submit_unsubscribed_session_error_witness :
    MiningService.submit envAcceptAll sessAuthNoSub "miner" "j1" "0000" "5e000000" "00000001" =
      ({ authCalls := [("miner", some "pw")], limiterCalls := [], records := [],
         blockCallback := none },
       Except.error (PyError.submitException "Connection is not subscribed for mining")) := by
  have h := submit_unsubscribed_session_error envAcceptAll sessAuthNoSub "miner" "j1" "0000"
    "5e000000" "00000001" rfl rfl
  simpa using h

/-- C10: a session whose `extranonce1` is assigned but empty is treated by
`submit` exactly like one with no `extranonce1` at all, and the call fails
with the session-state error: `if not extranonce1_bin:` tests truthiness, and
the empty byte string is falsy. -/
theorem submit_empty_extranonce1_like_unsubscribed (env : Env) (session : Session)
    (w j e2 t n : String)
    (hauth : env.wmAuthorize w (authLookup session.authorized w) = true)
    (hsub : session.extranonce1 = some []) :
    MiningService.submit env session w j e2 t n =
      MiningService.submit env { session with extranonce1 := none } w j e2 t n ∧
    (MiningService.submit env session w j e2 t n).2 =
      Except.error (PyError.submitException "Connection is not subscribed for mining") := by
  have h1 : MiningService.submit env session w j e2 t n =
      ({ authCalls := [(w, authLookup session.authorized w)], limiterCalls := [],
         records := [], blockCallback := none },
       Except.error (PyError.submitException "Connection is not subscribed for mining")) := by
    unfold MiningService.submit
    simp [hauth, hsub, pyBytesFalsy]
  have h2 : MiningService.submit env { session with extranonce1 := none } w j e2 t n =
      ({ authCalls := [(w, authLookup session.authorized w)], limiterCalls := [],
         records := [], blockCallback := none },
       Except.error (PyError.submitException "Connection is not subscribed for mining")) := by
    unfold MiningService.submit
    simp [hauth, pyBytesFalsy]
  exact ⟨h1.trans h2.symm, by rw [h1]⟩

/-- Witness for C10 at a concrete session whose `extranonce1` is `b''`. -/
theorem submit_empty_extranonce1_like_unsubscribed_witness :
    MiningService.submit envAcceptAll sessAuthEmptyE1 "miner" "j1" "0000" "5e000000"
        "00000001" =
      MiningService.submit envAcceptAll { sessAuthEmptyE1 with extranonce1 := none }
        "miner" "j1" "0000" "5e000000" "00000001" ∧
    (MiningService.submit envAcceptAll sessAuthEmptyE1 "miner" "j1" "0000" "5e000000"
        "00000001").2 =
      Except.error (PyError.submitException "Connection is not subscribed for mining") :=
  submit_empty_extranonce1_like_unsubscribed envAcceptAll sessAuthEmptyE1 "miner" "j1"
    "0000" "5e000000" "00000001" rfl rfl

/-- Counterexample to C3 as stated: with a worker manager that accepts every
pair — password checking is delegated entirely to that external oracle — a
submit naming a worker that was never authorized on the connection is not
rejected: the whole pipeline runs and the call returns true. -/
theorem submit_never_authorized_not_always_rejected :
    authLookup sessNoAuth.authorized "ghost" = none ∧
    (MiningService.submit envAcceptAll sessNoAuth "ghost" "j1" "0000" "5e000000"
        "00000001").2 = Except.ok true :=
  ⟨rfl, rfl⟩

/-- C3 (amended): for a worker never authorized on the connection the stored
credential is `None`; when the worker manager rejects `(worker, None)` the
submit fails with the authorization error and nothing else happens — no rate
bookkeeping, no validation, no outcome recording. -/
theorem submit_never_authorized_rejected_when_none_rejected (env : Env)
    (session : Session) (w j e2 t n : String)
    (hstored : authLookup session.authorized w = none)
    (hrej : env.wmAuthorize w none = false) :
    MiningService.submit env session w j e2 t n =
      ({ authCalls := [(w, none)], limiterCalls := [], records := [],
         blockCallback := none },
       Except.error (PyError.submitException "Worker is not authorized")) := by
  unfold MiningService.submit
  simp [hstored, hrej]

/-- Witness for the amended C3 with a rejecting worker manager and a
never-authorized worker. -/
theorem submit_never_authorized_rejected_when_none_rejected_witness :
    MiningService.submit envRejectAll sessNoAuth "ghost" "j1" "0000" "5e000000"
        "00000001" =
      ({ authCalls := [("ghost", none)], limiterCalls := [], records := [],
         blockCallback := none },
       Except.error (PyError.submitException "Worker is not authorized")) :=
  submit_never_authorized_rejected_when_none_rejected envRejectAll sessNoAuth "ghost"
    "j1" "0000" "5e000000" "00000001" rfl rfl

/-- C2: when the validator raises, `submit` records the invalid outcome —
accepted false, header and hash `False`, the snapshotted session difficulty,
achieved share difficulty 0, the exception message — and also re-raises the
exception to the RPC caller: the record and the error both happen. -/
theorem submit_validation_failure_records_and_raises (env : Env) (session : Session)
    (w j e2 t n : String) (d : Int) (msg : String)
    (hauth : env.wmAuthorize w (authLookup session.authorized w) = true)
    (hsub : pyBytesFalsy session.extranonce1 = false)
    (hd : session.difficulty = some d)
    (hval : env.submitShare j w session (Option.getD session.extranonce1 []) e2 t n d =
      Except.error msg) :
    MiningService.submit env session w j e2 t n =
      ({ authCalls := [(w, authLookup session.authorized w)],
         limiterCalls := [(j, d, env.time, w)],
         records := [⟨w, none, none, d, env.time, false, env.ip, msg, 0⟩],
         blockCallback := none },
       Except.error (PyError.submitException msg)) := by
  unfold MiningService.submit
  simp [hauth, hsub, hd, hval]

/-- Witness for C2 with a validator that raises `Invalid nonce`. -/
theorem submit_validation_failure_records_and_raises_witness :
    MiningService.submit envValidationFail sessAuthSub "miner" "j1" "0000" "5e000000"
        "00000001" =
      ({ authCalls := [("miner", some "pw")], limiterCalls := [("j1", 16, 11, "miner")],
         records := [⟨"miner", none, none, 16, 11, false, "192.0.2.5", "Invalid nonce", 0⟩],
         blockCallback := none },
       Except.error (PyError.submitException "Invalid nonce")) := by
  have h := submit_validation_failure_records_and_raises envValidationFail sessAuthSub
    "miner" "j1" "0000" "5e000000" "00000001" 16 "Invalid nonce" rfl rfl rfl rfl
  simpa using h

/-- C6: when validation succeeds `submit` replies true regardless of whether
a block-submission handle is pending, and the confirmation continuation is
registered iff the handle is present; when registered it carries the original
worker, header, hash, timestamp, IP and achieved share difficulty. -/
theorem submit_success_reply_and_callback (env : Env) (session : Session)
    (w j e2 t n : String) (d : Int) (r : SubmitShareOk)
    (hauth : env.wmAuthorize w (authLookup session.authorized w) = true)
    (hsub : pyBytesFalsy session.extranonce1 = false)
    (hd : session.difficulty = some d)
    (hval : env.submitShare j w session (Option.getD session.extranonce1 []) e2 t n d =
      Except.ok r) :
    (MiningService.submit env session w j e2 t n).2 = Except.ok true ∧
    (MiningService.submit env session w j e2 t n).1.blockCallback =
      (if r.on_submit.isSome then
        some ⟨w, r.block_header, r.block_hash, env.time, env.ip, r.share_diff⟩
      else none) := by
  unfold MiningService.submit
  simp [hauth, hsub, hd, hval]
  cases hos : r.on_submit <;> simp [hos]

/-- Witness for C6 with a validator returning a pending block handle. -/
theorem submit_success_reply_and_callback_witness :
    (MiningService.submit envAcceptAll sessAuthSub "miner" "j1" "0000" "5e000000"
        "00000001").2 = Except.ok true ∧
    (MiningService.submit envAcceptAll sessAuthSub "miner" "j1" "0000" "5e000000"
        "00000001").1.blockCallback =
      some ⟨"miner", some "header", some "hash", 7, "10.0.0.1", 42⟩ := by
  have h := submit_success_reply_and_callback envAcceptAll sessAuthSub "miner" "j1"
    "0000" "5e000000" "00000001" 16 ⟨some "header", some "hash", 42, some (), none⟩
    rfl rfl rfl rfl
  simpa using h

/-- C1, against the intended semantics of `service.py:107-116` (the source's
line 109, `if shareAtOldDiff = false:`, is a syntax error; see the doc of
`MiningService.submit`): an accepted share is credited at the validator's
old-difficulty value when one is returned, and at the snapshotted session
difficulty when the validator returns the `False` sentinel —
`Option.getD r.shareAtOldDiff d` is exactly that choice. -/
theorem submit_old_diff_credit (env : Env) (session : Session)
    (w j e2 t n : String) (d : Int) (r : SubmitShareOk)
    (hauth : env.wmAuthorize w (authLookup session.authorized w) = true)
    (hsub : pyBytesFalsy session.extranonce1 = false)
    (hd : session.difficulty = some d)
    (hval : env.submitShare j w session (Option.getD session.extranonce1 []) e2 t n d =
      Except.ok r) :
    (MiningService.submit env session w j e2 t n).1.records =
      [⟨w, r.block_header, r.block_hash, Option.getD r.shareAtOldDiff d, env.time, true,
        env.ip, "", r.share_diff⟩] ∧
    (MiningService.submit env session w j e2 t n).2 = Except.ok true := by
  unfold MiningService.submit
  simp [hauth, hsub, hd, hval]
  cases hod : r.shareAtOldDiff <;> simp [hod]

/-- Witness for C1: session difficulty 16, validator credits old difficulty 8,
achieved share difficulty 9; the record carries difficulty 8. -/
theorem submit_old_diff_credit_witness :
    (MiningService.submit envOldDiffCredit sessAuthSub "miner" "j1" "0000" "5e000000"
        "00000001").1.records =
      [⟨"miner", some "header", some "hash", 8, 13, true, "198.51.100.9", "", 9⟩] ∧
    (MiningService.submit envOldDiffCredit sessAuthSub "miner" "j1" "0000" "5e000000"
        "00000001").2 = Except.ok true := by
  have h := submit_old_diff_credit envOldDiffCredit sessAuthSub "miner" "j1" "0000"
    "5e000000" "00000001" 16 ⟨some "header", some "hash", 9, none, some 8⟩ rfl rfl rfl rfl
  simpa using h

/-- C9: every submit issues exactly one worker-manager query, with the
credential stored in the session's `authorized` map (`None` for an absent
entry); and for a never-authorized worker the call fails at the authorization
step — with no other effect — iff the worker manager rejects
`(worker_name, None)`. -/
theorem submit_reauth_stored_credential (env : Env) (session : Session)
    (w j e2 t n : String) :
    (MiningService.submit env session w j e2 t n).1.authCalls =
      [(w, authLookup session.authorized w)] ∧
    (authLookup session.authorized w = none →
      (MiningService.submit env session w j e2 t n =
        ({ authCalls := [(w, none)], limiterCalls := [], records := [],
           blockCallback := none },
         Except.error (PyError.submitException "Worker is not authorized")) ↔
       env.wmAuthorize w none = false)) := by
  refine ⟨submit_authCalls env session w j e2 t n, fun hnone => ⟨?_, ?_⟩⟩
  · intro heq
    by_contra htrue
    rw [Bool.not_eq_false] at htrue
    unfold MiningService.submit at heq
    rw [hnone] at heq
    simp [htrue] at heq
    cases h1 : pyBytesFalsy session.extranonce1 <;> rw [h1] at heq <;> simp at heq
    cases hd : session.difficulty <;> rw [hd] at heq <;> simp at heq
    cases hv : env.submitShare j w session (Option.getD session.extranonce1 []) e2 t n _ <;>
      rw [hv] at heq <;> simp at heq
  · intro hfalse
    unfold MiningService.submit
    simp [hnone, hfalse]

/-- Witness for C9 on a fresh session: the single authorization query carries
`None`, and with an all-accepting worker manager the authorization-failure
equivalence instantiates to `False iff False`. -/
theorem submit_reauth_stored_credential_witness :
    (MiningService.submit envAcceptAll sessFresh "w" "j1" "0000" "5e000000"
        "00000001").1.authCalls = [("w", none)] ∧
    (MiningService.submit envAcceptAll sessFresh "w" "j1" "0000" "5e000000" "00000001" =
       ({ authCalls := [("w", none)], limiterCalls := [], records := [],
          blockCallback := none },
        Except.error (PyError.submitException "Worker is not authorized")) ↔
     envAcceptAll.wmAuthorize "w" none = false) := by
  have h := submit_reauth_stored_credential envAcceptAll sessFresh "w" "j1" "0000"
    "5e000000" "00000001"
  exact ⟨by simpa using h.1, h.2 rfl⟩

/-- A counter allocator: the n-th allocation is the single byte n. -/
def allocNat : Nat → ByteStr × Nat := fun n => ([n], n + 1)

/-- C7: `subscribe` returns the subscription details with the hex form of the
freshly allocated `extranonce1` and the pool's `extranonce2` size, stores the
allocated value and the pool-default difficulty in the session, advances the
allocator state, and is not idempotent: when the allocator yields distinct
values on consecutive states, two subscribe calls on the same connection
store distinct `extranonce1` values. -/
theorem subscribe_fresh_each_call {α : Type} (alloc : α → ByteStr × α)
    (e2size : Nat) (details : List String) (poolTarget : Int) (st : α)
    (session : Session) :
    (MiningService.subscribe alloc e2size details poolTarget st session).1 =
      (details, MiningService.hexlify (alloc st).1, e2size) ∧
    (MiningService.subscribe alloc e2size details poolTarget st session).2.1 =
      (alloc st).2 ∧
    (MiningService.subscribe alloc e2size details poolTarget st session).2.2 =
      { session with extranonce1 := some (alloc st).1,
                     difficulty := some poolTarget } ∧
    ((alloc st).1 ≠ (alloc (alloc st).2).1 →
      (MiningService.subscribe alloc e2size details poolTarget st session).2.2.extranonce1 ≠
      (MiningService.subscribe alloc e2size details poolTarget
          (MiningService.subscribe alloc e2size details poolTarget st session).2.1
          (MiningService.subscribe alloc e2size details poolTarget st
            session).2.2).2.2.extranonce1) := by
  refine ⟨rfl, rfl, rfl, fun hne heq => hne ?_⟩
  simp [MiningService.subscribe] at heq
  exact heq

/-- Witness for C7: with the counter allocator, two subscribe calls store
different extranonce1 values. -/
theorem subscribe_fresh_each_call_witness :
    (MiningService.subscribe allocNat 4 ["sid1"] 1 0 sessFresh).2.2.extranonce1 ≠
      (MiningService.subscribe allocNat 4 ["sid1"] 1
          (MiningService.subscribe allocNat 4 ["sid1"] 1 0 sessFresh).2.1
          (MiningService.subscribe allocNat 4 ["sid1"] 1 0
            sessFresh).2.2).2.2.extranonce1 :=
  (subscribe_fresh_each_call allocNat 4 ["sid1"] 1 0 sessFresh).2.2.2 (by decide)
